import Mathlib

/-!
Verification of the status-condition reconciliation engine of this
repository (the `runtime/reconcile` package).  The implementation itself is
not part of the provided sources; only its test file is.  The definitions
below are therefore modelled from the specification (spec.md §3–§4.5), with
every branch that the specification leaves open, or that it describes
differently from the package's own tests, fixed the way the tests
(`TestResultFinalizer`, `TestResultFinalizer_successNoRequeue`,
`TestAddPatchOptions`, `TestDetermineSuccessType`) pin it down.
-/

namespace FluxReconcile

/-- Status value of a condition, spec.md §3: `enum{True, False, Unknown}`
(`metav1.ConditionStatus`). -/
inductive ConditionStatus where
  | conditionTrue
  | conditionFalse
  | conditionUnknown
deriving DecidableEq, Repr

/-- Modelled from the spec: the Condition record of spec.md §3
(`metav1.Condition`): `{Type, Status, Reason, Message, ObservedGeneration,
LastTransitionTime}`.  Timestamps are abstracted as naturals. -/
structure Condition where
  condType : String
  status : ConditionStatus
  reason : String
  message : String
  observedGeneration : Nat
  lastTransitionTime : Nat
deriving DecidableEq, Repr

/-- Condition type `meta.ReadyCondition`. -/
def ReadyCondition : String := "Ready"

/-- Condition type `meta.StalledCondition`. -/
def StalledCondition : String := "Stalled"

/-- Condition type `meta.ReconcilingCondition`. -/
def ReconcilingCondition : String := "Reconciling"

/-- Reason `meta.SucceededReason`. -/
def SucceededReason : String := "Succeeded"

/-- Reason `meta.FailedReason`. -/
def FailedReason : String := "Failed"

/-- Look up the condition with the given type in a condition list
(`conditions.Get`).  Spec.md §3 invariant: at most one condition per type,
so the first match is the condition. -/
def getCondition : List Condition → String → Option Condition
  | [], _ => none
  | c :: rest, t => if c.condType = t then some c else getCondition rest t

/-- Remove every condition of the given type (`conditions.Delete`). -/
def deleteCondition : List Condition → String → List Condition
  | [], _ => []
  | c :: rest, t =>
      if c.condType = t then deleteCondition rest t else c :: deleteCondition rest t

/-- Modelled from the spec: write a condition into the store
(`conditions.Set`, reached through `MarkTrue`/`MarkFalse`).  An existing
condition of the same type is overwritten in place; spec.md §3 invariant:
`LastTransitionTime` updates only when `Status` changes.
`ObservedGeneration` is stamped from the resource generation `gen`. -/
def setCondition (now gen : Nat) : List Condition → String → ConditionStatus →
    String → String → List Condition
  | [], t, st, reason, message => [⟨t, st, reason, message, gen, now⟩]
  | c :: rest, t, st, reason, message =>
      if c.condType = t then
        { condType := t, status := st, reason := reason, message := message,
          observedGeneration := gen,
          lastTransitionTime :=
            if c.status = st then c.lastTransitionTime else now } :: rest
      else c :: setCondition now gen rest t st reason message

/-- Presence of a condition of the given type (`conditions.Has`). -/
def hasCondition (conds : List Condition) (t : String) : Bool :=
  (getCondition conds t).isSome

/-- A condition of the given type is present with Status=True
(`conditions.IsTrue`). -/
def isTrueCond (conds : List Condition) (t : String) : Bool :=
  match getCondition conds t with
  | some c => c.status = ConditionStatus.conditionTrue
  | none => false

/-- A condition of the given type is present with Status=False
(`conditions.IsFalse`). -/
def isFalseCond (conds : List Condition) (t : String) : Bool :=
  match getCondition conds t with
  | some c => c.status = ConditionStatus.conditionFalse
  | none => false

/-- Reconcile outcome, spec.md §3 (`ctrl.Result`): requeue directive of one
attempt.  The error travels separately as an `Option String` (its
message). -/
structure RecResult where
  Requeue : Bool
  RequeueAfter : Nat
deriving DecidableEq, Repr

/-- The result asks for more work: an immediate requeue or any requeue
interval. -/
def requeueRequested (res : RecResult) : Bool :=
  res.Requeue || res.RequeueAfter ≠ 0

/-- Success discipline, spec.md §3: `RequeueOnSuccess` (`SuccessWithRequeue`)
or `NoRequeueOnSuccess` (`SuccessNoRequeue`). -/
inductive SuccessType where
  | SuccessWithRequeue
  | SuccessNoRequeue
deriving DecidableEq, Repr

/-- The caller-supplied success predicate, spec.md §4.2 (`IsResultSuccess`). -/
def IsResultSuccess : Type := RecResult → Option String → Bool

/-- Modelled from the spec: `determineSuccessType` (spec.md §4.2) probes the
success predicate with a synthetic result to name the discipline.  The
spec's non-zero-interval probe cannot be fabricated without knowing the
discipline's interval, so the probe is taken at the zero result, which the
package's `TestDetermineSuccessType` pins: a predicate satisfied by the
zero result is `SuccessNoRequeue`, otherwise `SuccessWithRequeue`. -/
def determineSuccessType (isSuccess : RecResult → Option String → Bool) : SuccessType :=
  if isSuccess ⟨false, 0⟩ none then SuccessType.SuccessNoRequeue
  else SuccessType.SuccessWithRequeue

/-- Condition Set Specification, spec.md §3 (the `Conditions` value of the
reconcile package): target type, owned types, prioritized summary order and
the negative-polarity subset. -/
structure Conditions where
  Target : String
  Owned : List String
  Summarize : List String
  NegativePolarity : List String

/-- Spec.md §4.1 step 1: a stored condition is "negative" (bad) when its
status is True and its type is in `NegativePolarity`, or its status is
False and its type is not. -/
def negativePolarityBad (cs : Conditions) (c : Condition) : Bool :=
  if c.condType ∈ cs.NegativePolarity then c.status = ConditionStatus.conditionTrue
  else c.status = ConditionStatus.conditionFalse

/-- Walk a priority list of condition types and return the first stored
condition that is bad in the sense of `negativePolarityBad`. -/
def firstBadIn (cs : Conditions) (conds : List Condition) : List String → Option Condition
  | [] => none
  | t :: rest =>
      match getCondition conds t with
      | some c => if negativePolarityBad cs c then some c else firstBadIn cs conds rest
      | none => firstBadIn cs conds rest

/-- Walk a priority list of condition types and return the first condition
present in the store. -/
def firstPresentIn (conds : List Condition) : List String → Option Condition
  | [] => none
  | t :: rest =>
      match getCondition conds t with
      | some c => some c
      | none => firstPresentIn conds rest

/-- Modelled from the spec: the Condition Summarizer (spec.md §4.1), the
`summarize` step of the reconcile package.  The first bad condition in
`Summarize` priority order wins and sets `Target` to False with its reason
and message; with no bad condition but at least one summarized condition
present, `Target` becomes True carrying the first present condition's
reason and message (pinned by the `success with summarize conditions`
test); with none present the store is untouched. -/
def summarize (now gen : Nat) (conds : List Condition) (cs : Conditions) : List Condition :=
  match firstBadIn cs conds cs.Summarize with
  | some c =>
      setCondition now gen conds cs.Target ConditionStatus.conditionFalse c.reason c.message
  | none =>
      match firstPresentIn conds cs.Summarize with
      | some c =>
          setCondition now gen conds cs.Target ConditionStatus.conditionTrue c.reason c.message
      | none => conds

/-- Modelled from the spec: the resource surface the engine sees
(spec.md §6, `testdata.Fake`): generation, the optional reconcile-request
marker (`meta.ReconcileRequestAnnotation`), the condition list and the
`LastHandledReconcileAt` status field. -/
structure FakeObj where
  generation : Nat
  reconcileRequest : Option String
  conditions : List Condition
  lastHandledReconcileAt : String
deriving DecidableEq, Repr

/-- Modelled from the spec: the stalled-to-Ready propagation of spec.md
§4.3.5 — on a terminal zero result with `Stalled` True, Ready must surface
the stall.  The spec words it for an unset Ready only; the package's tests
(`stalled and reconciling, Ready=True, overwrite ready` and
`stalled, Ready=True, overwrite ready`) pin that an already-True Ready is
overwritten as well, so the guard is "Ready is not explicitly False". -/
def stalledReadyProp (now gen : Nat) (conds : List Condition) : List Condition :=
  match getCondition conds StalledCondition with
  | some sc =>
      if sc.status = ConditionStatus.conditionTrue && !(isFalseCond conds ReadyCondition) then
        setCondition now gen conds ReadyCondition ConditionStatus.conditionFalse
          sc.reason sc.message
      else conds
  | none => conds

/-- Modelled from the spec: `ResultFinalizer.Finalize` (spec.md §4.3), the
end-of-reconcile status transition.  Where the spec and the package's tests
diverge, the tests decide: `Stalled` is removed whenever the outcome
carries an error or any requeue (kept only on a terminal zero result
without error, even on `SuccessNoRequeue` success); `Reconciling` is
removed on success and on an error-free terminal zero result; the
success-but-Ready-False contradiction is an error only under the
`SuccessWithRequeue` discipline; a `SuccessNoRequeue` success additionally
runs the stalled-to-Ready propagation.  Returns the mutated resource and
whether a non-nil error is returned. -/
def Finalize (isSuccess : RecResult → Option String → Bool) (readySuccessMsg : String)
    (specs : List Conditions) (now : Nat) (obj : FakeObj) (res : RecResult)
    (recErr : Option String) : FakeObj × Bool :=
  let success := isSuccess res recErr
  let sType := determineSuccessType isSuccess
  let rq := requeueRequested res
  let conds1 :=
    if recErr.isSome || rq then deleteCondition obj.conditions StalledCondition
    else obj.conditions
  let conds2 :=
    if success || (recErr.isNone && !rq) then deleteCondition conds1 ReconcilingCondition
    else conds1
  let conds3 := specs.foldl (fun cs sp => summarize now obj.generation cs sp) conds2
  let lhra :=
    match obj.reconcileRequest with
    | some v => v
    | none => obj.lastHandledReconcileAt
  let base : FakeObj :=
    { obj with conditions := conds3, lastHandledReconcileAt := lhra }
  if success then
    match sType with
    | SuccessType.SuccessWithRequeue =>
        if isFalseCond base.conditions ReadyCondition then (base, true)
        else if hasCondition base.conditions ReadyCondition then (base, false)
        else
          let marked := setCondition now obj.generation base.conditions ReadyCondition
            ConditionStatus.conditionTrue SucceededReason readySuccessMsg
          ({ base with conditions := marked }, false)
    | SuccessType.SuccessNoRequeue =>
        let conds4 := stalledReadyProp now obj.generation base.conditions
        if hasCondition conds4 ReadyCondition then ({ base with conditions := conds4 }, false)
        else
          let marked := setCondition now obj.generation conds4 ReadyCondition
            ConditionStatus.conditionTrue SucceededReason readySuccessMsg
          ({ base with conditions := marked }, false)
  else
    match recErr with
    | some e =>
        if isFalseCond base.conditions ReadyCondition then (base, true)
        else
          let marked := setCondition now obj.generation base.conditions ReadyCondition
            ConditionStatus.conditionFalse FailedReason e
          ({ base with conditions := marked }, true)
    | none =>
        if rq then (base, false)
        else ({ base with conditions := stalledReadyProp now obj.generation base.conditions }, false)

/-- Patch options of the patch package consumed by `AddPatchOptions`. -/
inductive PatchOption where
  | withOwnedConditions (owned : List String)
  | withFieldOwner (owner : String)
  | withStatusObservedGeneration
deriving DecidableEq, Repr

/-- Accumulated helper configuration (`patch.HelperOptions`). -/
structure HelperOptions where
  OwnedConditions : List String
  FieldOwner : String
  IncludeStatusObservedGeneration : Bool
deriving DecidableEq, Repr

/-- Application of one patch option to a helper configuration
(`ApplyToHelper`). -/
def applyToHelper (h : HelperOptions) (o : PatchOption) : HelperOptions :=
  match o with
  | PatchOption.withOwnedConditions owned => { h with OwnedConditions := owned }
  | PatchOption.withFieldOwner owner => { h with FieldOwner := owner }
  | PatchOption.withStatusObservedGeneration =>
      { h with IncludeStatusObservedGeneration := true }

/-- Modelled from the spec: the Patch-Option Composer `AddPatchOptions`
(spec.md §4.5): always append the owned-conditions and field-owner options,
and append the include-observed-generation option iff `Stalled` is True or
`Ready` is True. -/
def AddPatchOptions (conds : List Condition) (opts : List PatchOption)
    (ownedConditions : List String) (fieldOwner : String) : List PatchOption :=
  let opts := opts ++ [PatchOption.withOwnedConditions ownedConditions,
    PatchOption.withFieldOwner fieldOwner]
  if isTrueCond conds StalledCondition || isTrueCond conds ReadyCondition then
    opts ++ [PatchOption.withStatusObservedGeneration]
  else opts

/-- Helper predicate for the summarizer theorems: no type in the given
priority prefix holds a bad condition in the store. -/
def noBadBefore (cs : Conditions) (conds : List Condition) : List String → Bool
  | [] => true
  | s :: rest =>
      (match getCondition conds s with
       | some cp => !negativePolarityBad cs cp
       | none => true) && noBadBefore cs conds rest

theorem getCondition_eq_some_condType {l : List Condition} {t : String} {c : Condition}
    (h : getCondition l t = some c) : c.condType = t := by
  induction l with
  | nil => simp [getCondition] at h
  | cons a rest ih =>
      by_cases ha : a.condType = t
      · simp [getCondition, ha] at h
        subst h
        exact ha
      · simp [getCondition, ha] at h
        exact ih h

theorem getCondition_delete_self (l : List Condition) (t : String) :
    getCondition (deleteCondition l t) t = none := by
  induction l with
  | nil => simp [getCondition, deleteCondition]
  | cons a rest ih =>
      by_cases ha : a.condType = t
      · simp [deleteCondition, ha, ih]
      · simp [deleteCondition, getCondition, ha, ih]

theorem getCondition_delete_ne (l : List Condition) {s t : String} (h : s ≠ t) :
    getCondition (deleteCondition l t) s = getCondition l s := by
  induction l with
  | nil => simp [deleteCondition]
  | cons a rest ih =>
      have hts : t ≠ s := Ne.symm h
      by_cases ha : a.condType = t
      · simp [deleteCondition, getCondition, ha, hts, ih]
      · simp [deleteCondition, getCondition, ha, ih]

theorem delete_of_getCondition_none {l : List Condition} {t : String}
    (h : getCondition l t = none) : deleteCondition l t = l := by
  induction l with
  | nil => simp [deleteCondition]
  | cons a rest ih =>
      by_cases ha : a.condType = t
      · simp [getCondition, ha] at h
      · simp [getCondition, ha] at h
        simp [deleteCondition, ha, ih h]

theorem getCondition_set_self (now gen : Nat) (l : List Condition) (t : String)
    (st : ConditionStatus) (r m : String) :
    ∃ ltt, getCondition (setCondition now gen l t st r m) t
      = some ⟨t, st, r, m, gen, ltt⟩ := by
  induction l with
  | nil => exact ⟨now, by simp [setCondition, getCondition]⟩
  | cons a rest ih =>
      by_cases ha : a.condType = t
      · exact ⟨if a.status = st then a.lastTransitionTime else now,
          by simp [setCondition, getCondition, ha]⟩
      · obtain ⟨ltt, hltt⟩ := ih
        exact ⟨ltt, by simp [setCondition, getCondition, ha, hltt]⟩

theorem getCondition_set_self_of_none (now gen : Nat) {l : List Condition} {t : String}
    (h : getCondition l t = none) (st : ConditionStatus) (r m : String) :
    getCondition (setCondition now gen l t st r m) t = some ⟨t, st, r, m, gen, now⟩ := by
  induction l with
  | nil => simp [setCondition, getCondition]
  | cons a rest ih =>
      by_cases ha : a.condType = t
      · simp [getCondition, ha] at h
      · simp [getCondition, ha] at h
        simp [setCondition, getCondition, ha, ih h]

theorem getCondition_set_ne (now gen : Nat) (l : List Condition) {s t : String}
    (h : s ≠ t) (st : ConditionStatus) (r m : String) :
    getCondition (setCondition now gen l t st r m) s = getCondition l s := by
  have hts : t ≠ s := Ne.symm h
  induction l with
  | nil => simp [setCondition, getCondition, hts]
  | cons a rest ih =>
      by_cases ha : a.condType = t
      · simp [setCondition, getCondition, ha, hts, ih]
      · simp [setCondition, getCondition, ha, ih]

theorem stalledReadyProp_get_ne (now gen : Nat) (l : List Condition) {s : String}
    (h : s ≠ ReadyCondition) :
    getCondition (stalledReadyProp now gen l) s = getCondition l s := by
  unfold stalledReadyProp
  cases hst : getCondition l StalledCondition with
  | none => rfl
  | some sc =>
      by_cases hg : sc.status = ConditionStatus.conditionTrue ∧
          isFalseCond l ReadyCondition = false
      · simp [hg.1, hg.2, getCondition_set_ne now gen l h]
      · rcases Decidable.not_and_iff_or_not.mp hg with h1 | h2
        · simp [h1]
        · have : isFalseCond l ReadyCondition = true := by
            revert h2
            cases isFalseCond l ReadyCondition <;> simp
          simp [this]

theorem isFalseCond_eq_false_of_none {l : List Condition} {t : String}
    (h : getCondition l t = none) : isFalseCond l t = false := by
  simp [isFalseCond, h]

theorem isFalseCond_eq_false_of_some {l : List Condition} {t : String} {c : Condition}
    (h : getCondition l t = some c) (hst : c.status ≠ ConditionStatus.conditionFalse) :
    isFalseCond l t = false := by
  simp [isFalseCond, h, hst]

/-- C10: on an error-free outcome that the success predicate rejects and
that requests no requeue at all, `Finalize` removes the `Reconciling`
condition, for every resource (the spec spells the removal out only for
the success branch). -/
theorem c10_zero_result_removes_reconciling
    (pred : RecResult → Option String → Bool) (msg : String) (now : Nat)
    (obj : FakeObj) (res : RecResult)
    (hns : pred res none = false) (hr : res.Requeue = false)
    (hra : res.RequeueAfter = 0) :
    getCondition (Finalize pred msg [] now obj res none).fst.conditions
      ReconcilingCondition = none := by
  have hrq : requeueRequested res = false := by
    simp [requeueRequested, hr, hra]
  have hne : ReconcilingCondition ≠ ReadyCondition := by decide
  simp only [Finalize, hns, hrq, Option.isSome_none, Option.isNone_none, Bool.false_or,
    Bool.not_false, Bool.true_and, List.foldl_nil, if_false, Bool.false_eq_true, if_true,
    Bool.and_true]
  rw [stalledReadyProp_get_ne now obj.generation _ hne]
  exact getCondition_delete_self _ _

/-- C10 witness. -/
theorem c10_witness :
    getCondition (Finalize (fun r e => e.isNone && (r.RequeueAfter = 60) && !r.Requeue)
      "Success" [] 5
      ⟨1, none, [⟨ReconcilingCondition, ConditionStatus.conditionTrue, "X", "mX", 1, 0⟩,
        ⟨StalledCondition, ConditionStatus.conditionTrue, "Y", "mY", 1, 0⟩], ""⟩
      ⟨false, 0⟩ none).fst.conditions ReconcilingCondition = none :=
  c10_zero_result_removes_reconciling _ _ _ _ _ (by decide) (by decide) (by decide)

/-- C6: on an error-free terminal outcome (no requeue at all) that the
success predicate rejects, with `Stalled` True: `Stalled` is left exactly
as it was, and an unset `Ready` is set to False copying `Stalled`'s reason
and message; no error is returned. -/
theorem c6_terminal_stall_surfaces_ready
    (pred : RecResult → Option String → Bool) (msg : String) (now : Nat)
    (obj : FakeObj) (res : RecResult) (sc : Condition)
    (hns : pred res none = false) (hr : res.Requeue = false)
    (hra : res.RequeueAfter = 0)
    (hst : getCondition obj.conditions StalledCondition = some sc)
    (hsct : sc.status = ConditionStatus.conditionTrue)
    (hready : getCondition obj.conditions ReadyCondition = none) :
    getCondition (Finalize pred msg [] now obj res none).fst.conditions
        StalledCondition = some sc ∧
    getCondition (Finalize pred msg [] now obj res none).fst.conditions
        ReadyCondition = some ⟨ReadyCondition, ConditionStatus.conditionFalse,
          sc.reason, sc.message, obj.generation, now⟩ ∧
    (Finalize pred msg [] now obj res none).snd = false := by
  have hrq : requeueRequested res = false := by simp [requeueRequested, hr, hra]
  have hSR : StalledCondition ≠ ReconcilingCondition := by decide
  have hRR : ReadyCondition ≠ ReconcilingCondition := by decide
  have hSRy : StalledCondition ≠ ReadyCondition := by decide
  simp only [Finalize, hns, hrq, Option.isSome_none, Option.isNone_none, Bool.false_or,
    Bool.not_false, Bool.true_and, List.foldl_nil, Bool.false_eq_true, if_false, if_true]
  have h1 : getCondition (deleteCondition obj.conditions ReconcilingCondition)
      StalledCondition = some sc := by
    rw [getCondition_delete_ne _ hSR]
    exact hst
  have h2 : getCondition (deleteCondition obj.conditions ReconcilingCondition)
      ReadyCondition = none := by
    rw [getCondition_delete_ne _ hRR]
    exact hready
  unfold stalledReadyProp
  rw [h1]
  simp only [hsct, isFalseCond_eq_false_of_none h2, Bool.not_false, decide_True,
    Bool.true_and, Bool.and_true, Bool.and_self, if_true]
  refine ⟨?_, ?_, trivial⟩
  · rw [getCondition_set_ne _ _ _ hSRy]
    exact h1
  · exact getCondition_set_self_of_none now obj.generation h2 _ _ _

/-- C6 witness. -/
theorem c6_witness :
    getCondition (Finalize (fun r e => e.isNone && (r.RequeueAfter = 60) && !r.Requeue)
        "Success" [] 5
        ⟨1, none, [⟨StalledCondition, ConditionStatus.conditionTrue, "SomeReasonX",
          "some msg X", 1, 0⟩], ""⟩ ⟨false, 0⟩ none).fst.conditions StalledCondition
      = some ⟨StalledCondition, ConditionStatus.conditionTrue, "SomeReasonX",
          "some msg X", 1, 0⟩ :=
  (c6_terminal_stall_surfaces_ready
    (fun r e => e.isNone && (r.RequeueAfter = 60) && !r.Requeue) "Success" 5
    ⟨1, none, [⟨StalledCondition, ConditionStatus.conditionTrue, "SomeReasonX",
      "some msg X", 1, 0⟩], ""⟩ ⟨false, 0⟩
    ⟨StalledCondition, ConditionStatus.conditionTrue, "SomeReasonX", "some msg X", 1, 0⟩
    (by decide) (by decide) (by decide) (by decide) (by decide) (by decide)).1

/-- C9: on an error-free terminal outcome (no requeue at all) that the
success predicate rejects, with `Stalled` True and `Ready` True, the
already-True `Ready` is overwritten to False with `Stalled`'s reason and
message. -/
theorem c9_terminal_stall_overwrites_true_ready
    (pred : RecResult → Option String → Bool) (msg : String) (now : Nat)
    (obj : FakeObj) (res : RecResult) (sc rc : Condition)
    (hns : pred res none = false) (hr : res.Requeue = false)
    (hra : res.RequeueAfter = 0)
    (hst : getCondition obj.conditions StalledCondition = some sc)
    (hsct : sc.status = ConditionStatus.conditionTrue)
    (hready : getCondition obj.conditions ReadyCondition = some rc)
    (hrct : rc.status = ConditionStatus.conditionTrue) :
    (∃ ltt, getCondition (Finalize pred msg [] now obj res none).fst.conditions
        ReadyCondition = some ⟨ReadyCondition, ConditionStatus.conditionFalse,
          sc.reason, sc.message, obj.generation, ltt⟩) ∧
    getCondition (Finalize pred msg [] now obj res none).fst.conditions
        StalledCondition = some sc := by
  have hrq : requeueRequested res = false := by simp [requeueRequested, hr, hra]
  have hSR : StalledCondition ≠ ReconcilingCondition := by decide
  have hRR : ReadyCondition ≠ ReconcilingCondition := by decide
  have hSRy : StalledCondition ≠ ReadyCondition := by decide
  simp only [Finalize, hns, hrq, Option.isSome_none, Option.isNone_none, Bool.false_or,
    Bool.not_false, Bool.true_and, List.foldl_nil, Bool.false_eq_true, if_false, if_true]
  have h1 : getCondition (deleteCondition obj.conditions ReconcilingCondition)
      StalledCondition = some sc := by
    rw [getCondition_delete_ne _ hSR]
    exact hst
  have h2 : getCondition (deleteCondition obj.conditions ReconcilingCondition)
      ReadyCondition = some rc := by
    rw [getCondition_delete_ne _ hRR]
    exact hready
  have h3 : isFalseCond (deleteCondition obj.conditions ReconcilingCondition)
      ReadyCondition = false := by
    refine isFalseCond_eq_false_of_some h2 ?_
    rw [hrct]
    decide
  unfold stalledReadyProp
  rw [h1]
  simp only [hsct, h3, Bool.not_false, decide_True, Bool.true_and, Bool.and_true,
    Bool.and_self, if_true]
  constructor
  · exact getCondition_set_self now obj.generation _ _ _ _ _
  · rw [getCondition_set_ne _ _ _ hSRy]
    exact h1

/-- C9 witness. -/
theorem c9_witness :
    ∃ ltt, getCondition (Finalize (fun r e => e.isNone && (r.RequeueAfter = 60) && !r.Requeue)
        "Success" [] 5
        ⟨1, none, [⟨StalledCondition, ConditionStatus.conditionTrue, "SomeReasonY",
            "some msg Y", 1, 0⟩,
          ⟨ReadyCondition, ConditionStatus.conditionTrue, "SomeReasonZ", "some msg Z", 1, 0⟩],
          ""⟩ ⟨false, 0⟩ none).fst.conditions ReadyCondition
      = some ⟨ReadyCondition, ConditionStatus.conditionFalse, "SomeReasonY",
          "some msg Y", 1, ltt⟩ :=
  (c9_terminal_stall_overwrites_true_ready
    (fun r e => e.isNone && (r.RequeueAfter = 60) && !r.Requeue) "Success" 5
    ⟨1, none, [⟨StalledCondition, ConditionStatus.conditionTrue, "SomeReasonY",
        "some msg Y", 1, 0⟩,
      ⟨ReadyCondition, ConditionStatus.conditionTrue, "SomeReasonZ", "some msg Z", 1, 0⟩],
      ""⟩ ⟨false, 0⟩
    ⟨StalledCondition, ConditionStatus.conditionTrue, "SomeReasonY", "some msg Y", 1, 0⟩
    ⟨ReadyCondition, ConditionStatus.conditionTrue, "SomeReasonZ", "some msg Z", 1, 0⟩
    (by decide) (by decide) (by decide) (by decide) (by decide) (by decide)
    (by decide)).1

theorem isFalseCond_eq_true_of_some {l : List Condition} {t : String} {c : Condition}
    (h : getCondition l t = some c) (hst : c.status = ConditionStatus.conditionFalse) :
    isFalseCond l t = true := by
  simp [isFalseCond, h, hst]

theorem getCondition_deletes_pres {s : String} (hs1 : s ≠ StalledCondition)
    (hs2 : s ≠ ReconcilingCondition) (l : List Condition) (b1 b2 : Bool) :
    getCondition (if b2 then
        deleteCondition (if b1 then deleteCondition l StalledCondition else l)
          ReconcilingCondition
      else if b1 then deleteCondition l StalledCondition else l) s
      = getCondition l s := by
  cases b1 <;> cases b2 <;>
    simp [getCondition_delete_ne _ hs1, getCondition_delete_ne _ hs2]

/-- C3: on non-success with an error, an unset or True `Ready` is
overwritten to False with the generic failure reason and the error's
message, while an already-False `Ready` keeps its reason and message
(its whole condition, in fact) unchanged. -/
theorem c3_error_ready_transition
    (pred : RecResult → Option String → Bool) (msg : String) (now : Nat)
    (obj : FakeObj) (res : RecResult) (e : String)
    (hns : pred res (some e) = false) :
    ((getCondition obj.conditions ReadyCondition = none ∨
        (∃ rc, getCondition obj.conditions ReadyCondition = some rc ∧
          rc.status = ConditionStatus.conditionTrue)) →
      ∃ rc2, getCondition (Finalize pred msg [] now obj res (some e)).fst.conditions
          ReadyCondition = some rc2 ∧ rc2.status = ConditionStatus.conditionFalse ∧
        rc2.reason = FailedReason ∧ rc2.message = e) ∧
    (∀ rc, getCondition obj.conditions ReadyCondition = some rc →
      rc.status = ConditionStatus.conditionFalse →
      getCondition (Finalize pred msg [] now obj res (some e)).fst.conditions
          ReadyCondition = some rc) := by
  have hRS : ReadyCondition ≠ StalledCondition := by decide
  have hRR : ReadyCondition ≠ ReconcilingCondition := by decide
  simp only [Finalize, hns, Option.isSome_some, Option.isNone_some, Bool.true_or,
    Bool.false_and, Bool.false_or, Bool.or_false, Bool.false_eq_true, if_false, if_true,
    List.foldl_nil]
  have hpres : getCondition (deleteCondition obj.conditions StalledCondition)
      ReadyCondition = getCondition obj.conditions ReadyCondition :=
    getCondition_delete_ne _ hRS
  constructor
  · intro h
    have hnotf : isFalseCond (deleteCondition obj.conditions StalledCondition)
        ReadyCondition = false := by
      rcases h with h | ⟨rc, hrc, hrct⟩
      · exact isFalseCond_eq_false_of_none (hpres.trans h)
      · refine isFalseCond_eq_false_of_some (hpres.trans hrc) ?_
        rw [hrct]
        decide
    simp only [hnotf, Bool.false_eq_true, if_false]
    obtain ⟨ltt, hltt⟩ := getCondition_set_self now obj.generation
      (deleteCondition obj.conditions StalledCondition) ReadyCondition
      ConditionStatus.conditionFalse FailedReason e
    exact ⟨_, hltt, rfl, rfl, rfl⟩
  · intro rc hrc hf
    have hisf : isFalseCond (deleteCondition obj.conditions StalledCondition)
        ReadyCondition = true :=
      isFalseCond_eq_true_of_some (hpres.trans hrc) hf
    simp only [hisf, if_true]
    exact hpres.trans hrc

/-- C3 witness. -/
theorem c3_witness :
    ∃ rc2, getCondition (Finalize
        (fun r e => e.isNone && (r.RequeueAfter = 60) && !r.Requeue) "Success" [] 5
        ⟨1, none, [], ""⟩ ⟨false, 0⟩ (some "foo failed")).fst.conditions ReadyCondition
        = some rc2 ∧ rc2.status = ConditionStatus.conditionFalse ∧
      rc2.reason = FailedReason ∧ rc2.message = "foo failed" :=
  (c3_error_ready_transition
    (fun r e => e.isNone && (r.RequeueAfter = 60) && !r.Requeue) "Success" 5
    ⟨1, none, [], ""⟩ ⟨false, 0⟩ "foo failed" (by decide)).1 (Or.inl (by decide))

/-- C2 counterexample: an outcome carrying an error removes a `Stalled`
condition that business logic set to True (test `result with error and
stalled` of `TestResultFinalizer`), so `Finalize` does not leave `Stalled`
exactly as it was. -/
theorem c2_counterexample :
    getCondition ([⟨StalledCondition, ConditionStatus.conditionTrue, "SomeReasonX",
        "some msg X", 1, 0⟩] : List Condition) StalledCondition
      = some ⟨StalledCondition, ConditionStatus.conditionTrue, "SomeReasonX",
          "some msg X", 1, 0⟩ ∧
    getCondition (Finalize (fun r e => e.isNone && (r.RequeueAfter = 60) && !r.Requeue)
        "Success" [] 5
        ⟨1, none, [⟨StalledCondition, ConditionStatus.conditionTrue, "SomeReasonX",
          "some msg X", 1, 0⟩], ""⟩ ⟨false, 0⟩ (some "foo failed")).fst.conditions
        StalledCondition = none := by
  decide

/-- C2 amended: on non-success with an error, the `Reconciling` condition
is left exactly as business logic set it, while the `Stalled` condition is
removed. -/
theorem c2_error_keeps_reconciling_removes_stalled
    (pred : RecResult → Option String → Bool) (msg : String) (now : Nat)
    (obj : FakeObj) (res : RecResult) (e : String)
    (hns : pred res (some e) = false) :
    getCondition (Finalize pred msg [] now obj res (some e)).fst.conditions
        ReconcilingCondition = getCondition obj.conditions ReconcilingCondition ∧
    getCondition (Finalize pred msg [] now obj res (some e)).fst.conditions
        StalledCondition = none := by
  have hCR : ReconcilingCondition ≠ ReadyCondition := by decide
  have hCS : ReconcilingCondition ≠ StalledCondition := by decide
  have hSRy : StalledCondition ≠ ReadyCondition := by decide
  simp only [Finalize, hns, Option.isSome_some, Option.isNone_some, Bool.true_or,
    Bool.false_and, Bool.false_or, Bool.or_false, Bool.false_eq_true, if_false, if_true,
    List.foldl_nil]
  by_cases hf : isFalseCond (deleteCondition obj.conditions StalledCondition)
      ReadyCondition = true
  · simp only [hf, if_true]
    exact ⟨getCondition_delete_ne _ hCS, getCondition_delete_self _ _⟩
  · simp only [hf, Bool.false_eq_true, if_false]
    constructor
    · rw [getCondition_set_ne _ _ _ hCR]
      exact getCondition_delete_ne _ hCS
    · rw [getCondition_set_ne _ _ _ hSRy]
      exact getCondition_delete_self _ _

/-- C2 witness. -/
theorem c2_witness :
    getCondition (Finalize (fun r e => e.isNone && (r.RequeueAfter = 60) && !r.Requeue)
        "Success" [] 5
        ⟨1, none, [⟨ReconcilingCondition, ConditionStatus.conditionTrue, "SomeReasonX",
            "some msg X", 1, 0⟩,
          ⟨StalledCondition, ConditionStatus.conditionTrue, "SomeReasonY", "some msg Y",
            1, 0⟩], ""⟩ ⟨false, 0⟩ (some "foo failed")).fst.conditions ReconcilingCondition
      = some ⟨ReconcilingCondition, ConditionStatus.conditionTrue, "SomeReasonX",
          "some msg X", 1, 0⟩ := by
  have h := (c2_error_keeps_reconciling_removes_stalled
    (fun r e => e.isNone && (r.RequeueAfter = 60) && !r.Requeue) "Success" 5
    ⟨1, none, [⟨ReconcilingCondition, ConditionStatus.conditionTrue, "SomeReasonX",
        "some msg X", 1, 0⟩,
      ⟨StalledCondition, ConditionStatus.conditionTrue, "SomeReasonY", "some msg Y",
        1, 0⟩], ""⟩ ⟨false, 0⟩ "foo failed" (by decide)).1
  rw [h]
  decide

/-- C1 counterexample: under the `NoRequeueOnSuccess` discipline the success
predicate classifies the zero result with no error as success while `Ready`
is explicitly False, yet `Finalize` returns no error (test `success result
but not ready, Ready=False, no error` of
`TestResultFinalizer_successNoRequeue`); `Ready` is still left unchanged. -/
theorem c1_counterexample :
    (fun (r : RecResult) (e : Option String) =>
        e.isNone && (r.RequeueAfter = 0) && !r.Requeue) ⟨false, 0⟩ none = true ∧
    getCondition ([⟨ReadyCondition, ConditionStatus.conditionFalse, FailedReason,
        "fail-msg", 1, 0⟩] : List Condition) ReadyCondition
      = some ⟨ReadyCondition, ConditionStatus.conditionFalse, FailedReason,
          "fail-msg", 1, 0⟩ ∧
    (Finalize (fun r e => e.isNone && (r.RequeueAfter = 0) && !r.Requeue) "Success" [] 5
      ⟨1, none, [⟨ReadyCondition, ConditionStatus.conditionFalse, FailedReason,
        "fail-msg", 1, 0⟩], ""⟩ ⟨false, 0⟩ none).snd = false ∧
    getCondition (Finalize (fun r e => e.isNone && (r.RequeueAfter = 0) && !r.Requeue)
      "Success" [] 5
      ⟨1, none, [⟨ReadyCondition, ConditionStatus.conditionFalse, FailedReason,
        "fail-msg", 1, 0⟩], ""⟩ ⟨false, 0⟩ none).fst.conditions ReadyCondition
      = some ⟨ReadyCondition, ConditionStatus.conditionFalse, FailedReason,
          "fail-msg", 1, 0⟩ := by
  decide

/-- C1 amended: for a finalizer with no summarize specifications whose
success predicate follows the `RequeueOnSuccess` discipline, whenever the
predicate classifies the outcome as success while `Ready` is present with
Status=False, `Finalize` returns a non-nil error and leaves the `Ready`
condition (status, reason, message) unchanged. -/
theorem c1_with_requeue_contradiction_errors
    (pred : RecResult → Option String → Bool) (msg : String) (now : Nat)
    (obj : FakeObj) (res : RecResult) (recErr : Option String) (rc : Condition)
    (hdisc : determineSuccessType pred = SuccessType.SuccessWithRequeue)
    (hsucc : pred res recErr = true)
    (hget : getCondition obj.conditions ReadyCondition = some rc)
    (hst : rc.status = ConditionStatus.conditionFalse) :
    (Finalize pred msg [] now obj res recErr).snd = true ∧
    getCondition (Finalize pred msg [] now obj res recErr).fst.conditions
        ReadyCondition = some rc := by
  have hRS : ReadyCondition ≠ StalledCondition := by decide
  have hRR : ReadyCondition ≠ ReconcilingCondition := by decide
  simp only [Finalize, hsucc, List.foldl_nil, if_true, hdisc]
  have hpres : ∀ b1 b2 : Bool, getCondition (if b2 then
      deleteCondition (if b1 then deleteCondition obj.conditions StalledCondition
        else obj.conditions) ReconcilingCondition
      else if b1 then deleteCondition obj.conditions StalledCondition
        else obj.conditions) ReadyCondition = some rc := by
    intro b1 b2
    rw [getCondition_deletes_pres hRS hRR]
    exact hget
  have hisf := isFalseCond_eq_true_of_some
    (hpres (recErr.isSome || requeueRequested res)
      (true || (recErr.isNone && !requeueRequested res))) hst
  simp only [hisf, if_true]
  exact ⟨trivial, hpres _ _⟩

/-- C1 witness. -/
theorem c1_witness :
    (Finalize (fun r e => e.isNone && (r.RequeueAfter = 60) && !r.Requeue) "Success" [] 5
      ⟨1, none, [⟨ReadyCondition, ConditionStatus.conditionFalse, FailedReason,
        "fail-msg", 1, 0⟩], ""⟩ ⟨false, 60⟩ none).snd = true :=
  (c1_with_requeue_contradiction_errors
    (fun r e => e.isNone && (r.RequeueAfter = 60) && !r.Requeue) "Success" 5
    ⟨1, none, [⟨ReadyCondition, ConditionStatus.conditionFalse, FailedReason,
      "fail-msg", 1, 0⟩], ""⟩ ⟨false, 60⟩ none
    ⟨ReadyCondition, ConditionStatus.conditionFalse, FailedReason, "fail-msg", 1, 0⟩
    (by decide) (by decide) (by decide) (by decide)).1

/-- C5 counterexample: under the `NoRequeueOnSuccess` discipline a resource
with no `Ready` condition but `Stalled` True, on an outcome the predicate
classifies as success, ends with `Ready` False (copied from `Stalled`) and
`Stalled` still present — not `Ready` True with the default reason and
message (test `stalled, Ready=True, overwrite ready` of
`TestResultFinalizer_successNoRequeue`). -/
theorem c5_counterexample :
    (fun (r : RecResult) (e : Option String) =>
        e.isNone && (r.RequeueAfter = 0) && !r.Requeue) ⟨false, 0⟩ none = true ∧
    getCondition ([⟨StalledCondition, ConditionStatus.conditionTrue, "SomeReasonX",
        "some msg X", 1, 0⟩] : List Condition) ReadyCondition = none ∧
    getCondition (Finalize (fun r e => e.isNone && (r.RequeueAfter = 0) && !r.Requeue)
      "Success" [] 5 ⟨1, none, [⟨StalledCondition, ConditionStatus.conditionTrue,
        "SomeReasonX", "some msg X", 1, 0⟩], ""⟩ ⟨false, 0⟩ none).fst.conditions
        ReadyCondition
      = some ⟨ReadyCondition, ConditionStatus.conditionFalse, "SomeReasonX",
          "some msg X", 1, 5⟩ ∧
    (getCondition (Finalize (fun r e => e.isNone && (r.RequeueAfter = 0) && !r.Requeue)
      "Success" [] 5 ⟨1, none, [⟨StalledCondition, ConditionStatus.conditionTrue,
        "SomeReasonX", "some msg X", 1, 0⟩], ""⟩ ⟨false, 0⟩ none).fst.conditions
        StalledCondition).isSome = true := by
  decide

/-- C5 amended: for a finalizer with no summarize specifications whose
success predicate follows the `RequeueOnSuccess` discipline, on an
error-free outcome the predicate classifies as success and with no `Ready`
condition set, `Finalize` sets `Ready` True with the configured default
success reason and message, `Stalled` and `Reconciling` are absent, and no
error is returned. -/
theorem c5_success_with_requeue_defaults_ready
    (pred : RecResult → Option String → Bool) (msg : String) (now : Nat)
    (obj : FakeObj) (res : RecResult)
    (hdisc : determineSuccessType pred = SuccessType.SuccessWithRequeue)
    (hsucc : pred res none = true)
    (hready : getCondition obj.conditions ReadyCondition = none) :
    getCondition (Finalize pred msg [] now obj res none).fst.conditions ReadyCondition
      = some ⟨ReadyCondition, ConditionStatus.conditionTrue, SucceededReason, msg,
          obj.generation, now⟩ ∧
    getCondition (Finalize pred msg [] now obj res none).fst.conditions StalledCondition
      = none ∧
    getCondition (Finalize pred msg [] now obj res none).fst.conditions
        ReconcilingCondition = none ∧
    (Finalize pred msg [] now obj res none).snd = false := by
  have hRS : ReadyCondition ≠ StalledCondition := by decide
  have hRR : ReadyCondition ≠ ReconcilingCondition := by decide
  have hSR : StalledCondition ≠ ReconcilingCondition := by decide
  have hSRy : StalledCondition ≠ ReadyCondition := by decide
  have hCRy : ReconcilingCondition ≠ ReadyCondition := by decide
  have hprobe : pred ⟨false, 0⟩ none = false := by
    by_contra h
    have h2 : pred ⟨false, 0⟩ none = true := by
      revert h
      cases pred ⟨false, 0⟩ none <;> simp
    simp [determineSuccessType, h2] at hdisc
  have hrq : requeueRequested res = true := by
    by_contra h
    have h2 : requeueRequested res = false := by
      revert h
      cases requeueRequested res <;> simp
    have h3 : res = ⟨false, 0⟩ := by
      cases res with
      | mk a b =>
          simp only [requeueRequested, Bool.or_eq_false_iff] at h2
          obtain ⟨ha, hb⟩ := h2
          simp only [ha, decide_eq_false_iff_not, Decidable.not_not] at hb
          simp [ha, hb]
    rw [h3, hprobe] at hsucc
    exact Bool.false_ne_true hsucc
  simp only [Finalize, hsucc, hdisc, hrq, Option.isSome_none, Option.isNone_none,
    Bool.false_or, Bool.or_true, Bool.true_or, List.foldl_nil, if_true]
  have hg2 : getCondition (deleteCondition (deleteCondition obj.conditions
      StalledCondition) ReconcilingCondition) ReadyCondition = none := by
    rw [getCondition_delete_ne _ hRR, getCondition_delete_ne _ hRS]
    exact hready
  simp only [isFalseCond_eq_false_of_none hg2, Bool.false_eq_true, if_false,
    hasCondition, hg2, Option.isSome_none]
  refine ⟨getCondition_set_self_of_none now obj.generation hg2 _ _ _, ?_, ?_, trivial⟩
  · rw [getCondition_set_ne _ _ _ hSRy, getCondition_delete_ne _ hSR]
    exact getCondition_delete_self _ _
  · rw [getCondition_set_ne _ _ _ hCRy]
    exact getCondition_delete_self _ _

/-- C5 witness. -/
theorem c5_witness :
    getCondition (Finalize (fun r e => e.isNone && (r.RequeueAfter = 60) && !r.Requeue)
      "Success" [] 5 ⟨1, none, [], ""⟩ ⟨false, 60⟩ none).fst.conditions ReadyCondition
      = some ⟨ReadyCondition, ConditionStatus.conditionTrue, SucceededReason,
          "Success", 1, 5⟩ :=
  (c5_success_with_requeue_defaults_ready
    (fun r e => e.isNone && (r.RequeueAfter = 60) && !r.Requeue) "Success" 5
    ⟨1, none, [], ""⟩ ⟨false, 60⟩ (by decide) (by decide) (by decide)).1

/-- C7: the options returned by `AddPatchOptions` contain the
include-observed-generation option iff `Stalled` is True or the `Ready`
condition is True, and always contain the owned-conditions and field-owner
options carrying the given values. -/
theorem c7_patch_options (conds : List Condition) (owned : List String) (fo : String) :
    (PatchOption.withStatusObservedGeneration ∈ AddPatchOptions conds [] owned fo ↔
      (isTrueCond conds StalledCondition = true ∨
        isTrueCond conds ReadyCondition = true)) ∧
    PatchOption.withOwnedConditions owned ∈ AddPatchOptions conds [] owned fo ∧
    PatchOption.withFieldOwner fo ∈ AddPatchOptions conds [] owned fo := by
  simp only [AddPatchOptions, List.nil_append]
  by_cases h : isTrueCond conds StalledCondition = true ∨
      isTrueCond conds ReadyCondition = true
  · have hb : (isTrueCond conds StalledCondition ||
        isTrueCond conds ReadyCondition) = true := by
      rcases h with h | h <;> simp [h]
    simp [hb, h]
  · have hb : (isTrueCond conds StalledCondition ||
        isTrueCond conds ReadyCondition) = false := by
      rcases not_or.mp h with ⟨h1, h2⟩
      cases hx : isTrueCond conds StalledCondition
      · cases hy : isTrueCond conds ReadyCondition
        · rfl
        · exact absurd hy h2
      · exact absurd hx h1
    simp [hb, h]

/-- C4: in `summarize`, the first condition in `Summarize` priority order
that is present and bad — Status True with its type in `NegativePolarity`,
or Status False with its type outside it — determines the target: `Target`
is set to False with that condition's reason and message copied verbatim,
even when a higher-priority non-bad condition is also present. -/
theorem c4_first_bad_wins (now gen : Nat) (conds : List Condition) (cs : Conditions)
    (t : String) (c : Condition) (pre post : List String)
    (hsum : cs.Summarize = pre ++ t :: post)
    (hget : getCondition conds t = some c)
    (hbad : (c.condType ∈ cs.NegativePolarity ∧
        c.status = ConditionStatus.conditionTrue) ∨
      (c.condType ∉ cs.NegativePolarity ∧
        c.status = ConditionStatus.conditionFalse))
    (hpre : noBadBefore cs conds pre = true) :
    ∃ ltt, getCondition (summarize now gen conds cs) cs.Target
      = some ⟨cs.Target, ConditionStatus.conditionFalse, c.reason, c.message,
          gen, ltt⟩ := by
  have hbadb : negativePolarityBad cs c = true := by
    unfold negativePolarityBad
    rcases hbad with ⟨h1, h2⟩ | ⟨h1, h2⟩
    · simp [h1, h2]
    · simp [h1, h2]
  have hfb : ∀ l : List String, noBadBefore cs conds l = true →
      firstBadIn cs conds (l ++ t :: post) = some c := by
    intro l
    induction l with
    | nil =>
        intro _
        simp [firstBadIn, hget, hbadb]
    | cons s rest ih =>
        intro hl
        simp only [noBadBefore, Bool.and_eq_true] at hl
        obtain ⟨hhead, htail⟩ := hl
        cases hgs : getCondition conds s with
        | none =>
            rw [List.cons_append]
            simp only [firstBadIn, hgs]
            exact ih htail
        | some cp =>
            rw [hgs] at hhead
            have hh2 : (!negativePolarityBad cs cp) = true := hhead
            have hnb : negativePolarityBad cs cp = false := by
              simpa using hh2
            rw [List.cons_append]
            simp only [firstBadIn, hgs, hnb, Bool.false_eq_true, if_false]
            exact ih htail
  unfold summarize
  rw [hsum, hfb pre hpre]
  exact getCondition_set_self now gen conds cs.Target
    ConditionStatus.conditionFalse c.reason c.message

/-- C4 witness: a higher-priority positive-polarity condition `A` is True
(not bad) and the lower-priority negative-polarity condition `B` is True
(bad); `B` determines the target. -/
theorem c4_witness :
    ∃ ltt, getCondition (summarize 7 1
        [⟨"A", ConditionStatus.conditionTrue, "okReason", "ok message", 1, 0⟩,
         ⟨"B", ConditionStatus.conditionTrue, "badReason", "bad message", 1, 0⟩]
        ⟨"Ready", ["A", "B"], ["A", "B"], ["B"]⟩) "Ready"
      = some ⟨"Ready", ConditionStatus.conditionFalse, "badReason", "bad message",
          1, ltt⟩ :=
  c4_first_bad_wins 7 1
    [⟨"A", ConditionStatus.conditionTrue, "okReason", "ok message", 1, 0⟩,
     ⟨"B", ConditionStatus.conditionTrue, "badReason", "bad message", 1, 0⟩]
    ⟨"Ready", ["A", "B"], ["A", "B"], ["B"]⟩ "B"
    ⟨"B", ConditionStatus.conditionTrue, "badReason", "bad message", 1, 0⟩
    ["A"] [] (by decide) (by decide) (Or.inl (by decide)) (by decide)

theorem hasCondition_set_self (now gen : Nat) (l : List Condition) (t : String)
    (st : ConditionStatus) (r m : String) :
    hasCondition (setCondition now gen l t st r m) t = true := by
  obtain ⟨ltt, hltt⟩ := getCondition_set_self now gen l t st r m
  simp [hasCondition, hltt]

theorem isFalseCond_set_true (now gen : Nat) (l : List Condition) (t : String)
    (r m : String) :
    isFalseCond (setCondition now gen l t ConditionStatus.conditionTrue r m) t = false := by
  obtain ⟨ltt, hltt⟩ := getCondition_set_self now gen l t
    ConditionStatus.conditionTrue r m
  simp [isFalseCond, hltt]

theorem isFalseCond_set_false (now gen : Nat) (l : List Condition) (t : String)
    (r m : String) :
    isFalseCond (setCondition now gen l t ConditionStatus.conditionFalse r m) t = true := by
  obtain ⟨ltt, hltt⟩ := getCondition_set_self now gen l t
    ConditionStatus.conditionFalse r m
  simp [isFalseCond, hltt]

theorem hasCondition_of_isFalseCond {l : List Condition} {t : String}
    (h : isFalseCond l t = true) : hasCondition l t = true := by
  unfold isFalseCond at h
  unfold hasCondition
  cases hg : getCondition l t with
  | none => rw [hg] at h; cases h
  | some c => simp

theorem stalledReadyProp_idem (n1 n2 gen : Nat) (l : List Condition) :
    stalledReadyProp n2 gen (stalledReadyProp n1 gen l) = stalledReadyProp n1 gen l := by
  have hSRy : StalledCondition ≠ ReadyCondition := by decide
  unfold stalledReadyProp
  cases hst : getCondition l StalledCondition with
  | none => simp [hst]
  | some sc =>
      by_cases hsct : sc.status = ConditionStatus.conditionTrue
      · by_cases hrf : isFalseCond l ReadyCondition = true
        · simp [hst, hsct, hrf]
        · have hrf2 : isFalseCond l ReadyCondition = false := by
            revert hrf
            cases isFalseCond l ReadyCondition <;> simp
          simp only [hst, hsct, hrf2, Bool.not_false, decide_True, Bool.true_and,
            Bool.and_true, if_true]
          rw [getCondition_set_ne _ _ _ hSRy, hst]
          simp [hsct, isFalseCond_set_false]
      · simp [hst, hsct]

theorem stalledReadyProp_eq_self {now gen : Nat} {l : List Condition}
    (h : ∀ sc, getCondition l StalledCondition = some sc →
      sc.status = ConditionStatus.conditionTrue → isFalseCond l ReadyCondition = true) :
    stalledReadyProp now gen l = l := by
  unfold stalledReadyProp
  cases hst : getCondition l StalledCondition with
  | none => rfl
  | some sc =>
      by_cases hsct : sc.status = ConditionStatus.conditionTrue
      · have := h sc hst hsct
        simp [this]
      · simp [hsct]

theorem stalledReadyProp_eq_set {now gen : Nat} {l : List Condition} {sc : Condition}
    (hst : getCondition l StalledCondition = some sc)
    (hsct : sc.status = ConditionStatus.conditionTrue)
    (hrf : isFalseCond l ReadyCondition = false) :
    stalledReadyProp now gen l = setCondition now gen l ReadyCondition
      ConditionStatus.conditionFalse sc.reason sc.message := by
  unfold stalledReadyProp
  simp [hst, hsct, hrf]

theorem stalledReadyProp_set_true (n1 n2 n3 gen : Nat) (l : List Condition) (r m : String)
    (h : hasCondition (stalledReadyProp n1 gen l) ReadyCondition = false) :
    stalledReadyProp n3 gen (setCondition n2 gen (stalledReadyProp n1 gen l)
        ReadyCondition ConditionStatus.conditionTrue r m)
      = setCondition n2 gen (stalledReadyProp n1 gen l) ReadyCondition
          ConditionStatus.conditionTrue r m := by
  have hSRy : StalledCondition ≠ ReadyCondition := by decide
  refine stalledReadyProp_eq_self ?_
  intro sc hsc hsct
  exfalso
  rw [getCondition_set_ne _ _ _ hSRy, stalledReadyProp_get_ne _ _ _ hSRy] at hsc
  by_cases hrf : isFalseCond l ReadyCondition = true
  · have hgself : stalledReadyProp n1 gen l = l := by
      refine stalledReadyProp_eq_self ?_
      intro sc2 _ _
      exact hrf
    rw [hgself] at h
    rw [hasCondition_of_isFalseCond hrf] at h
    cases h
  · have hrf2 : isFalseCond l ReadyCondition = false := by
      revert hrf
      cases isFalseCond l ReadyCondition <;> simp
    rw [stalledReadyProp_eq_set hsc hsct hrf2, hasCondition_set_self] at h
    cases h

theorem deletes_noop {l : List Condition} (b1 b2 : Bool)
    (h1 : b1 = true → getCondition l StalledCondition = none)
    (h2 : b2 = true → getCondition l ReconcilingCondition = none) :
    (if b2 then
        deleteCondition (if b1 then deleteCondition l StalledCondition else l)
          ReconcilingCondition
      else if b1 then deleteCondition l StalledCondition else l) = l := by
  cases b1 with
  | false =>
      cases b2 with
      | false => simp
      | true => simp [delete_of_getCondition_none (h2 rfl)]
  | true =>
      have e1 : deleteCondition l StalledCondition = l :=
        delete_of_getCondition_none (h1 rfl)
      cases b2 with
      | false => simp [e1]
      | true => simp [e1, delete_of_getCondition_none (h2 rfl)]

/-- C8 counterexample: with a summarize specification configured, a second
identical `Finalize` call transiently rewrites the summary target and
refreshes its `LastTransitionTime` (0 after the first call at time 0, 1
after the second at time 1), so the condition lists are not identical. -/
theorem c8_counterexample :
    getCondition (Finalize (fun r e => e.isNone && (r.RequeueAfter = 60) && !r.Requeue)
        "Success" [⟨"Ready", ["ArtifactInStorage", "Ready"], ["ArtifactInStorage"], []⟩]
        0 ⟨1, none, [⟨"ArtifactInStorage", ConditionStatus.conditionTrue, "Succeeded",
          "stored artifact", 1, 0⟩], ""⟩ ⟨false, 0⟩
        (some "foo failed")).fst.conditions "Ready"
      = some ⟨"Ready", ConditionStatus.conditionFalse, "Failed", "foo failed", 1, 0⟩ ∧
    getCondition (Finalize (fun r e => e.isNone && (r.RequeueAfter = 60) && !r.Requeue)
        "Success" [⟨"Ready", ["ArtifactInStorage", "Ready"], ["ArtifactInStorage"], []⟩]
        1 (Finalize (fun r e => e.isNone && (r.RequeueAfter = 60) && !r.Requeue)
          "Success" [⟨"Ready", ["ArtifactInStorage", "Ready"], ["ArtifactInStorage"], []⟩]
          0 ⟨1, none, [⟨"ArtifactInStorage", ConditionStatus.conditionTrue, "Succeeded",
            "stored artifact", 1, 0⟩], ""⟩ ⟨false, 0⟩ (some "foo failed")).fst
        ⟨false, 0⟩ (some "foo failed")).fst.conditions "Ready"
      = some ⟨"Ready", ConditionStatus.conditionFalse, "Failed", "foo failed", 1, 1⟩ ∧
    (Finalize (fun r e => e.isNone && (r.RequeueAfter = 60) && !r.Requeue)
        "Success" [⟨"Ready", ["ArtifactInStorage", "Ready"], ["ArtifactInStorage"], []⟩]
        1 (Finalize (fun r e => e.isNone && (r.RequeueAfter = 60) && !r.Requeue)
          "Success" [⟨"Ready", ["ArtifactInStorage", "Ready"], ["ArtifactInStorage"], []⟩]
          0 ⟨1, none, [⟨"ArtifactInStorage", ConditionStatus.conditionTrue, "Succeeded",
            "stored artifact", 1, 0⟩], ""⟩ ⟨false, 0⟩ (some "foo failed")).fst
        ⟨false, 0⟩ (some "foo failed")).fst.conditions ≠
      (Finalize (fun r e => e.isNone && (r.RequeueAfter = 60) && !r.Requeue)
        "Success" [⟨"Ready", ["ArtifactInStorage", "Ready"], ["ArtifactInStorage"], []⟩]
        0 ⟨1, none, [⟨"ArtifactInStorage", ConditionStatus.conditionTrue, "Succeeded",
          "stored artifact", 1, 0⟩], ""⟩ ⟨false, 0⟩
        (some "foo failed")).fst.conditions := by
  refine ⟨by decide, by decide, by decide⟩

/-- C8 amended: for a finalizer with no Condition Set Specifications,
calling `Finalize` a second time with the same result and error on the
resource produced by the first call returns the identical resource —
condition list with every `LastTransitionTime` unchanged, last-handled
marker included — and the same error status. -/
theorem c8_idempotent_no_specs (pred : RecResult → Option String → Bool) (msg : String)
    (t1 t2 : Nat) (obj : FakeObj) (res : RecResult) (recErr : Option String) :
    Finalize pred msg [] t2 (Finalize pred msg [] t1 obj res recErr).fst res recErr
      = Finalize pred msg [] t1 obj res recErr := by
  have hRR : ReconcilingCondition ≠ ReadyCondition := by decide
  have hSRy : StalledCondition ≠ ReadyCondition := by decide
  have hSR : StalledCondition ≠ ReconcilingCondition := by decide
  have hRS : ReconcilingCondition ≠ StalledCondition := by decide
  obtain ⟨g, req, conds, lh⟩ := obj
  cases hS : pred res recErr with
  | true =>
      cases hP : pred ⟨false, 0⟩ none with
      | true =>
          have hdt : determineSuccessType pred = SuccessType.SuccessNoRequeue := by
            simp [determineSuccessType, hP]
          cases hb1 : (recErr.isSome || requeueRequested res) with
          | true =>
              simp only [Finalize, hS, hdt, hb1, Bool.true_or, Bool.or_true,
                List.foldl_nil, if_true]
              have hDSt : getCondition (deleteCondition (deleteCondition conds
                  StalledCondition) ReconcilingCondition) StalledCondition = none := by
                rw [getCondition_delete_ne _ hSR]
                exact getCondition_delete_self _ _
              have hDRec : getCondition (deleteCondition (deleteCondition conds
                  StalledCondition) ReconcilingCondition) ReconcilingCondition = none :=
                getCondition_delete_self _ _
              have hPSt : getCondition (stalledReadyProp t1 g (deleteCondition
                  (deleteCondition conds StalledCondition) ReconcilingCondition))
                  StalledCondition = none := by
                rw [stalledReadyProp_get_ne _ _ _ hSRy]
                exact hDSt
              have hPRec : getCondition (stalledReadyProp t1 g (deleteCondition
                  (deleteCondition conds StalledCondition) ReconcilingCondition))
                  ReconcilingCondition = none := by
                rw [stalledReadyProp_get_ne _ _ _ hRR]
                exact hDRec
              by_cases hH : hasCondition (stalledReadyProp t1 g (deleteCondition
                  (deleteCondition conds StalledCondition) ReconcilingCondition))
                  ReadyCondition = true
              · simp only [hH, if_true]
                rw [delete_of_getCondition_none hPSt, delete_of_getCondition_none hPRec,
                  stalledReadyProp_idem]
                simp only [hH, if_true]
                cases req <;> rfl
              · have hH2 : hasCondition (stalledReadyProp t1 g (deleteCondition
                    (deleteCondition conds StalledCondition) ReconcilingCondition))
                    ReadyCondition = false := by
                  revert hH
                  cases hasCondition (stalledReadyProp t1 g (deleteCondition
                    (deleteCondition conds StalledCondition) ReconcilingCondition))
                    ReadyCondition <;> simp
                simp only [hH2, Bool.false_eq_true, if_false]
                have hOSt : getCondition (setCondition t1 g (stalledReadyProp t1 g
                    (deleteCondition (deleteCondition conds StalledCondition)
                      ReconcilingCondition)) ReadyCondition
                    ConditionStatus.conditionTrue SucceededReason msg)
                    StalledCondition = none := by
                  rw [getCondition_set_ne _ _ _ hSRy]
                  exact hPSt
                have hORec : getCondition (setCondition t1 g (stalledReadyProp t1 g
                    (deleteCondition (deleteCondition conds StalledCondition)
                      ReconcilingCondition)) ReadyCondition
                    ConditionStatus.conditionTrue SucceededReason msg)
                    ReconcilingCondition = none := by
                  rw [getCondition_set_ne _ _ _ hRR]
                  exact hPRec
                rw [delete_of_getCondition_none hOSt, delete_of_getCondition_none hORec,
                  stalledReadyProp_set_true t1 t1 t2 g _ SucceededReason msg hH2]
                simp only [hasCondition_set_self, if_true]
                cases req <;> rfl
          | false =>
              simp only [Finalize, hS, hdt, hb1, Bool.true_or, Bool.or_true,
                List.foldl_nil, Bool.false_eq_true, if_false, if_true]
              have hDRec : getCondition (deleteCondition conds ReconcilingCondition)
                  ReconcilingCondition = none := getCondition_delete_self _ _
              have hPRec : getCondition (stalledReadyProp t1 g (deleteCondition conds
                  ReconcilingCondition)) ReconcilingCondition = none := by
                rw [stalledReadyProp_get_ne _ _ _ hRR]
                exact hDRec
              by_cases hH : hasCondition (stalledReadyProp t1 g (deleteCondition conds
                  ReconcilingCondition)) ReadyCondition = true
              · simp only [hH, if_true]
                rw [delete_of_getCondition_none hPRec, stalledReadyProp_idem]
                simp only [hH, if_true]
                cases req <;> rfl
              · have hH2 : hasCondition (stalledReadyProp t1 g (deleteCondition conds
                    ReconcilingCondition)) ReadyCondition = false := by
                  revert hH
                  cases hasCondition (stalledReadyProp t1 g (deleteCondition conds
                    ReconcilingCondition)) ReadyCondition <;> simp
                simp only [hH2, Bool.false_eq_true, if_false]
                have hORec : getCondition (setCondition t1 g (stalledReadyProp t1 g
                    (deleteCondition conds ReconcilingCondition)) ReadyCondition
                    ConditionStatus.conditionTrue SucceededReason msg)
                    ReconcilingCondition = none := by
                  rw [getCondition_set_ne _ _ _ hRR]
                  exact hPRec
                rw [delete_of_getCondition_none hORec,
                  stalledReadyProp_set_true t1 t1 t2 g _ SucceededReason msg hH2]
                simp only [hasCondition_set_self, if_true]
                cases req <;> rfl
      | false =>
          have hdt : determineSuccessType pred = SuccessType.SuccessWithRequeue := by
            simp [determineSuccessType, hP]
          cases hb1 : (recErr.isSome || requeueRequested res) with
          | true =>
              simp only [Finalize, hS, hdt, hb1, Bool.true_or, Bool.or_true,
                List.foldl_nil, if_true]
              have hDSt : getCondition (deleteCondition (deleteCondition conds
                  StalledCondition) ReconcilingCondition) StalledCondition = none := by
                rw [getCondition_delete_ne _ hSR]
                exact getCondition_delete_self _ _
              have hDRec : getCondition (deleteCondition (deleteCondition conds
                  StalledCondition) ReconcilingCondition) ReconcilingCondition = none :=
                getCondition_delete_self _ _
              by_cases hF : isFalseCond (deleteCondition (deleteCondition conds
                  StalledCondition) ReconcilingCondition) ReadyCondition = true
              · simp only [hF, if_true]
                rw [delete_of_getCondition_none hDSt, delete_of_getCondition_none hDRec]
                simp only [hF, if_true]
                cases req <;> rfl
              · have hF2 : isFalseCond (deleteCondition (deleteCondition conds
                    StalledCondition) ReconcilingCondition) ReadyCondition = false := by
                  revert hF
                  cases isFalseCond (deleteCondition (deleteCondition conds
                    StalledCondition) ReconcilingCondition) ReadyCondition <;> simp
                simp only [hF2, Bool.false_eq_true, if_false]
                by_cases hH : hasCondition (deleteCondition (deleteCondition conds
                    StalledCondition) ReconcilingCondition) ReadyCondition = true
                · simp only [hH, if_true]
                  rw [delete_of_getCondition_none hDSt, delete_of_getCondition_none hDRec]
                  simp only [hF2, Bool.false_eq_true, if_false, hH, if_true]
                  cases req <;> rfl
                · have hH2 : hasCondition (deleteCondition (deleteCondition conds
                      StalledCondition) ReconcilingCondition) ReadyCondition = false := by
                    revert hH
                    cases hasCondition (deleteCondition (deleteCondition conds
                      StalledCondition) ReconcilingCondition) ReadyCondition <;> simp
                  simp only [hH2, Bool.false_eq_true, if_false]
                  have hOSt : getCondition (setCondition t1 g (deleteCondition
                      (deleteCondition conds StalledCondition) ReconcilingCondition)
                      ReadyCondition ConditionStatus.conditionTrue SucceededReason msg)
                      StalledCondition = none := by
                    rw [getCondition_set_ne _ _ _ hSRy]
                    exact hDSt
                  have hORec : getCondition (setCondition t1 g (deleteCondition
                      (deleteCondition conds StalledCondition) ReconcilingCondition)
                      ReadyCondition ConditionStatus.conditionTrue SucceededReason msg)
                      ReconcilingCondition = none := by
                    rw [getCondition_set_ne _ _ _ hRR]
                    exact hDRec
                  rw [delete_of_getCondition_none hOSt, delete_of_getCondition_none hORec]
                  simp only [isFalseCond_set_true, Bool.false_eq_true, if_false,
                    hasCondition_set_self, if_true]
                  cases req <;> rfl
          | false =>
              simp only [Finalize, hS, hdt, hb1, Bool.true_or, Bool.or_true,
                List.foldl_nil, Bool.false_eq_true, if_false, if_true]
              have hDRec : getCondition (deleteCondition conds ReconcilingCondition)
                  ReconcilingCondition = none := getCondition_delete_self _ _
              by_cases hF : isFalseCond (deleteCondition conds ReconcilingCondition)
                  ReadyCondition = true
              · simp only [hF, if_true]
                rw [delete_of_getCondition_none hDRec]
                simp only [hF, if_true]
                cases req <;> rfl
              · have hF2 : isFalseCond (deleteCondition conds ReconcilingCondition)
                    ReadyCondition = false := by
                  revert hF
                  cases isFalseCond (deleteCondition conds ReconcilingCondition)
                    ReadyCondition <;> simp
                simp only [hF2, Bool.false_eq_true, if_false]
                by_cases hH : hasCondition (deleteCondition conds ReconcilingCondition)
                    ReadyCondition = true
                · simp only [hH, if_true]
                  rw [delete_of_getCondition_none hDRec]
                  simp only [hF2, Bool.false_eq_true, if_false, hH, if_true]
                  cases req <;> rfl
                · have hH2 : hasCondition (deleteCondition conds ReconcilingCondition)
                      ReadyCondition = false := by
                    revert hH
                    cases hasCondition (deleteCondition conds ReconcilingCondition)
                      ReadyCondition <;> simp
                  simp only [hH2, Bool.false_eq_true, if_false]
                  have hORec : getCondition (setCondition t1 g (deleteCondition conds
                      ReconcilingCondition) ReadyCondition
                      ConditionStatus.conditionTrue SucceededReason msg)
                      ReconcilingCondition = none := by
                    rw [getCondition_set_ne _ _ _ hRR]
                    exact hDRec
                  rw [delete_of_getCondition_none hORec]
                  simp only [isFalseCond_set_true, Bool.false_eq_true, if_false,
                    hasCondition_set_self, if_true]
                  cases req <;> rfl
  | false =>
      cases recErr with
      | some e =>
          simp only [Finalize, hS, Option.isSome_some, Option.isNone_some, Bool.true_or,
            Bool.false_and, Bool.false_or, Bool.or_false, Bool.false_eq_true, if_false,
            if_true, List.foldl_nil]
          by_cases hF : isFalseCond (deleteCondition conds StalledCondition)
              ReadyCondition = true
          · simp only [hF, if_true]
            have h1 : deleteCondition (deleteCondition conds StalledCondition)
                StalledCondition = deleteCondition conds StalledCondition :=
              delete_of_getCondition_none (getCondition_delete_self _ _)
            rw [h1]
            simp only [hF, if_true]
            cases req <;> rfl
          · have hF2 : isFalseCond (deleteCondition conds StalledCondition)
                ReadyCondition = false := by
              revert hF
              cases isFalseCond (deleteCondition conds StalledCondition) ReadyCondition <;>
                simp
            simp only [hF2, Bool.false_eq_true, if_false]
            have h2 : deleteCondition (setCondition t1 g
                (deleteCondition conds StalledCondition) ReadyCondition
                ConditionStatus.conditionFalse FailedReason e) StalledCondition
                = setCondition t1 g (deleteCondition conds StalledCondition)
                    ReadyCondition ConditionStatus.conditionFalse FailedReason e := by
              refine delete_of_getCondition_none ?_
              rw [getCondition_set_ne _ _ _ hSRy]
              exact getCondition_delete_self _ _
            rw [h2]
            simp only [isFalseCond_set_false, if_true]
            cases req <;> rfl
      | none =>
          cases hrq : requeueRequested res with
          | true =>
              simp only [Finalize, hS, hrq, Option.isSome_none, Option.isNone_none,
                Bool.false_or, Bool.or_false, Bool.not_true, Bool.and_false,
                Bool.true_and, Bool.false_and, List.foldl_nil, Bool.false_eq_true,
                if_false, if_true]
              have h1 : deleteCondition (deleteCondition conds StalledCondition)
                  StalledCondition = deleteCondition conds StalledCondition :=
                delete_of_getCondition_none (getCondition_delete_self _ _)
              rw [h1]
              cases req <;> rfl
          | false =>
              simp only [Finalize, hS, hrq, Option.isSome_none, Option.isNone_none,
                Bool.false_or, Bool.not_false, Bool.true_and, Bool.and_true,
                List.foldl_nil, Bool.false_eq_true, if_false, if_true]
              have h1 : deleteCondition (stalledReadyProp t1 g
                  (deleteCondition conds ReconcilingCondition)) ReconcilingCondition
                  = stalledReadyProp t1 g (deleteCondition conds ReconcilingCondition) := by
                refine delete_of_getCondition_none ?_
                rw [stalledReadyProp_get_ne _ _ _ hRR]
                exact getCondition_delete_self _ _
              rw [h1, stalledReadyProp_idem]
              cases req <;> rfl

end FluxReconcile
